import Mathlib

/-!
Shallow embedding of the NaviTag metadata aggregation engine
(`src/api/mod.rs`, `src/api/apple_music.rs`, `src/api/spotify.rs`,
`src/api/genius.rs`, `src/api/lastfm.rs`, `src/settings.rs`).

HTTP interactions are modelled by an oracle: every request slot of a call
is given its outcome (`HttpResult`) up front, and each embedded function
additionally returns the list of HTTP calls it performed, so that
frame/effect properties ("no call to a disabled provider") are statable.
Fallible Rust functions returning `Result<T, String>` become
`Except String T`.  The `unwrap()` on `access_token` in
`SpotifyClient::search` is modelled by a dedicated `panicked` outcome so
that its unreachability is a provable statement rather than an assumption.
-/

/-- The four metadata providers. -/
inductive Provider where
  | appleMusic
  | spotify
  | genius
  | lastfm
deriving DecidableEq, Repr

/-- One HTTP request slot, identified by its endpoint. -/
inductive HttpCall where
  | appleSearch
  | spotifyAuth
  | spotifySearch
  | geniusSearch
  | lastfmSearch
deriving DecidableEq, Repr

/-- Which provider's endpoint a call targets. -/
def HttpCall.provider : HttpCall → Provider
  | .appleSearch => .appleMusic
  | .spotifyAuth => .spotify
  | .spotifySearch => .spotify
  | .geniusSearch => .genius
  | .lastfmSearch => .lastfm

/-- Outcome of one HTTP request: a transport-level failure (DNS,
connection, timeout: reqwest `send()` returning `Err`), or a response with
a status code and a body.  The body is abstracted to `some v` when it
parses against the expected serde schema and `none` when parsing fails. -/
inductive HttpResult (α : Type) where
  | transportErr (msg : String)
  | resp (status : Nat) (body : Option α)
deriving DecidableEq

/-- reqwest `StatusCode::is_success`: 2xx. -/
def statusIsSuccess (s : Nat) : Bool :=
  decide (200 ≤ s ∧ s ≤ 299)

/-- `src/api/mod.rs` lines 6-13: the canonical result record. -/
structure MetadataResult where
  title : String
  artist : String
  album : String
  cover_url : Option String
  source : String
deriving DecidableEq, Repr

/-- `src/settings.rs` lines 5-15. -/
structure UserSettings where
  spotify_id : String
  spotify_secret : String
  genius_token : String
  lastfm_api_key : String
  enable_apple_music : Bool
  enable_spotify : Bool
  enable_genius : Bool
  enable_lastfm : Bool
deriving DecidableEq, Repr

/-- `Result::unwrap_or_default` on `Result<Vec<MetadataResult>, String>`. -/
def exceptListD : Except String (List MetadataResult) → List MetadataResult
  | .ok rs => rs
  | .error _ => []

/-! ## Rust `str::replace` (used by the Apple normalizer)

Embedded over `List Char`: replace every non-overlapping occurrence of
`pat`, scanning left to right.  Rust's `replace` with an empty pattern is
irrelevant here (the pattern used is `"100x100"`); the embedding keeps the
guard so the empty-pattern case cannot fire a zero-progress step.
Structural recursion on a fuel argument (initialised to the string's
length) keeps the definition kernel-computable. -/

/-- `pat` is a prefix of `s` (char-by-char). -/
def leadsWith : List Char → List Char → Bool
  | [], _ => true
  | _ :: _, [] => false
  | p :: ps, c :: cs => p == c && leadsWith ps cs

/-- `pat` occurs somewhere in `s` as a contiguous run. -/
def hasSub (pat : List Char) : List Char → Bool
  | [] => pat.isEmpty
  | c :: rest => leadsWith pat (c :: rest) || hasSub pat rest

/-- Fuel-indexed core of `str::replace`. -/
def replaceFuel (pat rep : List Char) : Nat → List Char → List Char
  | _, [] => []
  | 0, s => s
  | fuel + 1, c :: rest =>
    if leadsWith pat (c :: rest) && !pat.isEmpty then
      rep ++ replaceFuel pat rep fuel ((c :: rest).drop pat.length)
    else
      c :: replaceFuel pat rep fuel rest

/-- Rust `s.replace(pat, rep)`. -/
def rustReplace (s pat rep : String) : String :=
  ⟨replaceFuel pat.data rep.data s.data.length s.data⟩

/-! ## Apple / iTunes client (`src/api/apple_music.rs`) -/

/-- `ItunesTrack` (lines 9-19): all four fields optional in the schema. -/
structure ItunesTrack where
  track_name : Option String
  artist_name : Option String
  collection_name : Option String
  artwork_url : Option String
deriving DecidableEq, Repr

/-- Normalization inside `apple_music::search` (lines 34-40). -/
def appleNormalize (t : ItunesTrack) : MetadataResult :=
  { title := t.track_name.getD ""
    artist := t.artist_name.getD ""
    album := t.collection_name.getD ""
    cover_url := t.artwork_url.map (fun u => rustReplace u "100x100" "600x600")
    source := "Apple Music" }

/-- `apple_music::search` (lines 21-43).  Note: the source calls
`.json()` directly on the response with no status check, so the body is
parsed whatever the status code. -/
def apple_music.search (term : String) (o : HttpResult (List ItunesTrack)) :
    List HttpCall × Except String (List MetadataResult) :=
  let _ := term
  match o with
  | .transportErr e => ([.appleSearch], .error ("Request failed: " ++ e))
  | .resp _ body =>
    match body with
    | none => ([.appleSearch], .error "Parse failed")
    | some tracks => ([.appleSearch], .ok (tracks.map appleNormalize))

/-! ## Spotify client (`src/api/spotify.rs`) -/

/-- `Image` (lines 38-43). -/
structure SpotifyImage where
  url : String
  height : Option Nat
  width : Option Nat
deriving DecidableEq, Repr

/-- `Artist` (lines 33-36). -/
structure SpotifyArtist where
  name : String
deriving DecidableEq, Repr

/-- `Album` (lines 27-31). -/
structure SpotifyAlbum where
  name : String
  images : List SpotifyImage
deriving DecidableEq, Repr

/-- `Track` (lines 20-25). -/
structure SpotifyTrack where
  name : String
  album : SpotifyAlbum
  artists : List SpotifyArtist
deriving DecidableEq, Repr

/-- Normalization in `SpotifyClient::search` / `search_retry`
(lines 121-132 and 156-167, identical). -/
def spotifyNormalize (t : SpotifyTrack) : MetadataResult :=
  { title := t.name
    artist := (t.artists.head?.map SpotifyArtist.name).getD ""
    album := t.album.name
    cover_url := t.album.images.head?.map SpotifyImage.url
    source := "Spotify" }

/-- `SpotifyClient` (lines 45-49). -/
structure SpotifyClient where
  client_id : String
  client_secret : String
  access_token : Option String
deriving DecidableEq, Repr

/-- `SpotifyClient::new` (lines 52-58). -/
def SpotifyClient.new (client_id client_secret : String) : SpotifyClient :=
  { client_id := client_id, client_secret := client_secret, access_token := none }

/-- Outcome of `SpotifyClient::search`: Rust `Ok`, Rust `Err`, or the
panic of the `unwrap()` on a `None` token. -/
inductive SpotifyOutcome where
  | ok (rs : List MetadataResult)
  | err (msg : String)
  | panicked
deriving DecidableEq, Repr

/-- Oracle for one `SpotifyClient::search` call: outcomes for each of the
at most four HTTP request slots (initial token exchange, first search,
re-authentication token exchange after a 401, retried search).  The token
endpoint's body parses to the `access_token` string. -/
structure SpotifyEnv where
  authResp : HttpResult String
  searchResp : HttpResult (List SpotifyTrack)
  reauthResp : HttpResult String
  retryResp : HttpResult (List SpotifyTrack)

/-- `SpotifyClient::authenticate` (lines 60-84).  The early returns on
failure leave `self` untouched; only the success path writes
`access_token`. -/
def SpotifyClient.authenticate (c : SpotifyClient) (o : HttpResult String) :
    SpotifyClient × Except String Unit :=
  match o with
  | .transportErr e => (c, .error ("Auth request failed: " ++ e))
  | .resp status body =>
    if !statusIsSuccess status then
      (c, .error ("Auth failed with status: " ++ toString status))
    else
      match body with
      | none => (c, .error "Auth parse failed")
      | some tok => ({ c with access_token := some tok }, .ok ())

/-- `SpotifyClient::search_retry` (lines 137-168).  Takes `&self`
immutably; parses the body with no status check at all. -/
def SpotifyClient.search_retry (c : SpotifyClient) (term token : String)
    (o : HttpResult (List SpotifyTrack)) : Except String (List MetadataResult) :=
  let _ := c
  let _ := term
  let _ := token
  match o with
  | .transportErr e => .error ("Retry search request failed: " ++ e)
  | .resp _ body =>
    match body with
    | none => .error "Retry search parse failed"
    | some tracks => .ok (tracks.map spotifyNormalize)

/-- Body of `SpotifyClient::search` after the lazy-authentication step
(lines 91-135): the `unwrap()` of the token, the first search request,
the 401 re-authentication path, the status check, and the parse. -/
def spotifySearchCore (c : SpotifyClient) (term : String) (env : SpotifyEnv) :
    SpotifyClient × List HttpCall × SpotifyOutcome :=
  match c.access_token with
  | none => (c, [], .panicked)
  | some _ =>
    match env.searchResp with
    | .transportErr e => (c, [.spotifySearch], .err ("Search request failed: " ++ e))
    | .resp status body =>
      if status == 401 then
        match c.authenticate env.reauthResp with
        | (c2, .error e) => (c2, [.spotifySearch, .spotifyAuth], .err e)
        | (c2, .ok _) =>
          match c2.access_token with
          | none => (c2, [.spotifySearch, .spotifyAuth], .panicked)
          | some token2 =>
            match c2.search_retry term token2 env.retryResp with
            | .error e => (c2, [.spotifySearch, .spotifyAuth, .spotifySearch], .err e)
            | .ok rs => (c2, [.spotifySearch, .spotifyAuth, .spotifySearch], .ok rs)
      else if !statusIsSuccess status then
        (c, [.spotifySearch], .err ("Search failed with status: " ++ toString status))
      else
        match body with
        | none => (c, [.spotifySearch], .err "Search parse failed")
        | some tracks => (c, [.spotifySearch], .ok (tracks.map spotifyNormalize))

/-- `SpotifyClient::search` (lines 86-135): authenticate lazily when no
token is cached, then run the search body. -/
def SpotifyClient.search (c : SpotifyClient) (term : String) (env : SpotifyEnv) :
    SpotifyClient × List HttpCall × SpotifyOutcome :=
  if c.access_token.isNone then
    match c.authenticate env.authResp with
    | (c1, .error e) => (c1, [.spotifyAuth], .err e)
    | (c1, .ok _) =>
      let r := spotifySearchCore c1 term env
      (r.1, .spotifyAuth :: r.2.1, r.2.2)
  else
    spotifySearchCore c term env

/-! ## Genius client (`src/api/genius.rs`) -/

/-- `GeniusSong` (lines 20-25). -/
structure GeniusSong where
  title : String
  artist_names : String
  song_art_image_url : Option String
deriving DecidableEq, Repr

/-- `GeniusHit` (lines 15-18). -/
structure GeniusHit where
  result : GeniusSong
deriving DecidableEq, Repr

/-- Normalization in `GeniusClient::search` (lines 63-71). -/
def geniusNormalize (hit : GeniusHit) : MetadataResult :=
  { title := hit.result.title
    artist := hit.result.artist_names
    album := "Unknown (Genius)"
    cover_url := hit.result.song_art_image_url
    source := "Genius" }

/-- `GeniusClient` (lines 27-34). -/
structure GeniusClient where
  access_token : String
deriving DecidableEq, Repr

/-- `GeniusClient::search` (lines 36-74): fail fast on an empty token
(no HTTP call), otherwise one request, status check, then parse. -/
def GeniusClient.search (c : GeniusClient) (term : String)
    (o : HttpResult (List GeniusHit)) :
    List HttpCall × Except String (List MetadataResult) :=
  let _ := term
  if c.access_token.isEmpty then
    ([], .error "Genius Access Token is missing")
  else
    match o with
    | .transportErr e => ([.geniusSearch], .error ("Genius request failed: " ++ e))
    | .resp status body =>
      if !statusIsSuccess status then
        ([.geniusSearch], .error ("Genius request failed with status: " ++ toString status))
      else
        match body with
        | none => ([.geniusSearch], .error "Genius parse failed")
        | some hits => ([.geniusSearch], .ok (hits.map geniusNormalize))

/-! ## Last.fm client (`src/api/lastfm.rs`) -/

/-- `LastFmImage` (lines 26-31): `url` is the `#text` field. -/
structure LastFmImage where
  url : String
  size : String
deriving DecidableEq, Repr

/-- `LastFmTrack` (lines 19-24). -/
structure LastFmTrack where
  name : String
  artist : String
  image : Option (List LastFmImage)
deriving DecidableEq, Repr

/-- Cover selection in `LastFmClient::search` (lines 67-77): find the
first image tagged `extralarge`; when it exists and its URL is non-empty
take it; otherwise find the first image tagged `large` and take its URL
when non-empty; otherwise no cover. -/
def bestImage : Option (List LastFmImage) → Option String
  | none => none
  | some images =>
    let fromXL :=
      match images.find? (fun i => i.size == "extralarge") with
      | some img => if !img.url.isEmpty then some img.url else none
      | none => none
    match fromXL with
    | some u => some u
    | none =>
      match images.find? (fun i => i.size == "large") with
      | some img => if !img.url.isEmpty then some img.url else none
      | none => none

/-- Normalization in `LastFmClient::search` (lines 66-86). -/
def lastfmNormalize (t : LastFmTrack) : MetadataResult :=
  { title := t.name
    artist := t.artist
    album := "Unknown (Last.fm)"
    cover_url := bestImage t.image
    source := "Last.fm" }

/-- `LastFmClient` (lines 33-40). -/
structure LastFmClient where
  api_key : String
deriving DecidableEq, Repr

/-- `LastFmClient::search` (lines 42-89). -/
def LastFmClient.search (c : LastFmClient) (term : String)
    (o : HttpResult (List LastFmTrack)) :
    List HttpCall × Except String (List MetadataResult) :=
  let _ := term
  if c.api_key.isEmpty then
    ([], .error "Last.fm API Key is missing")
  else
    match o with
    | .transportErr e => ([.lastfmSearch], .error ("Last.fm request failed: " ++ e))
    | .resp status body =>
      if !statusIsSuccess status then
        ([.lastfmSearch], .error ("Last.fm request failed with status: " ++ toString status))
      else
        match body with
        | none => ([.lastfmSearch], .error "Last.fm parse failed")
        | some tracks => ([.lastfmSearch], .ok (tracks.map lastfmNormalize))

/-! ## Aggregator (`src/api/mod.rs` lines 17-63) -/

/-- Oracle for one `search_all` call: each provider's request slots. -/
structure AllEnv where
  apple : HttpResult (List ItunesTrack)
  spotify : SpotifyEnv
  genius : HttpResult (List GeniusHit)
  lastfm : HttpResult (List LastFmTrack)

/-- `unwrap_or_default` applied to a Spotify search outcome.  The
`panicked` case never occurs (proved below); mapping it to `[]` keeps the
aggregator total. -/
def outcomeListD : SpotifyOutcome → List MetadataResult
  | .ok rs => rs
  | _ => []

/-- The `apple_future` async block of `search_all` (lines 20-26). -/
def appleBranch (term : String) (settings : UserSettings)
    (o : HttpResult (List ItunesTrack)) : List HttpCall × List MetadataResult :=
  if settings.enable_apple_music then
    let a := apple_music.search term o
    (a.1, exceptListD a.2)
  else ([], [])

/-- The `spotify_future` async block of `search_all` (lines 28-35).
Note the guard checks `enable_spotify` and that `spotify_id` is
non-empty; `spotify_secret` is not inspected. -/
def spotifyBranch (term : String) (settings : UserSettings)
    (senv : SpotifyEnv) : List HttpCall × List MetadataResult :=
  if settings.enable_spotify && !settings.spotify_id.isEmpty then
    let c := SpotifyClient.new settings.spotify_id settings.spotify_secret
    let s := c.search term senv
    (s.2.1, outcomeListD s.2.2)
  else ([], [])

/-- The `genius_future` async block of `search_all` (lines 37-44). -/
def geniusBranch (term : String) (settings : UserSettings)
    (o : HttpResult (List GeniusHit)) : List HttpCall × List MetadataResult :=
  if settings.enable_genius && !settings.genius_token.isEmpty then
    let c : GeniusClient := { access_token := settings.genius_token }
    let g := c.search term o
    (g.1, exceptListD g.2)
  else ([], [])

/-- The `lastfm_future` async block of `search_all` (lines 46-53). -/
def lastfmBranch (term : String) (settings : UserSettings)
    (o : HttpResult (List LastFmTrack)) : List HttpCall × List MetadataResult :=
  if settings.enable_lastfm && !settings.lastfm_api_key.isEmpty then
    let c : LastFmClient := { api_key := settings.lastfm_api_key }
    let l := c.search term o
    (l.1, exceptListD l.2)
  else ([], [])

/-- `search_all` (lines 17-63), instrumented with the calls performed.
The four futures of the source are the four branches; `tokio::join!`
awaits all of them and the results are concatenated in the fixed order
Apple Music, Spotify, Genius, Last.fm.  The trace is the multiset of
calls made (inter-provider interleaving is irrelevant to the claims). -/
def searchAllRun (term : String) (settings : UserSettings) (env : AllEnv) :
    List HttpCall × List MetadataResult :=
  let r1 := appleBranch term settings env.apple
  let r2 := spotifyBranch term settings env.spotify
  let r3 := geniusBranch term settings env.genius
  let r4 := lastfmBranch term settings env.lastfm
  (r1.1 ++ r2.1 ++ r3.1 ++ r4.1, r1.2 ++ r2.2 ++ r3.2 ++ r4.2)

/-- The result list of `search_all`. -/
def search_all (term : String) (settings : UserSettings) (env : AllEnv) :
    List MetadataResult :=
  (searchAllRun term settings env).2

/-- The HTTP calls performed by `search_all`. -/
def searchAllTrace (term : String) (settings : UserSettings) (env : AllEnv) :
    List HttpCall :=
  (searchAllRun term settings env).1

/-- Calls of the trace hitting provider `p`'s endpoints. -/
def providerCalls (p : Provider) (tr : List HttpCall) : List HttpCall :=
  tr.filter (fun c => c.provider == p)

/-! Per-provider contribution functions, each depending only on its own
slot of the environment; the aggregation theorems relate `search_all` to
their concatenation. -/

/-- Apple Music's contribution to `search_all`. -/
def appleContrib (term : String) (settings : UserSettings)
    (o : HttpResult (List ItunesTrack)) : List MetadataResult :=
  if settings.enable_apple_music then exceptListD (apple_music.search term o).2 else []

/-- Spotify's contribution to `search_all`. -/
def spotifyContrib (term : String) (settings : UserSettings)
    (senv : SpotifyEnv) : List MetadataResult :=
  if settings.enable_spotify && !settings.spotify_id.isEmpty then
    outcomeListD ((SpotifyClient.new settings.spotify_id settings.spotify_secret).search
      term senv).2.2
  else []

/-- Genius's contribution to `search_all`. -/
def geniusContrib (term : String) (settings : UserSettings)
    (o : HttpResult (List GeniusHit)) : List MetadataResult :=
  if settings.enable_genius && !settings.genius_token.isEmpty then
    exceptListD ((GeniusClient.mk settings.genius_token).search term o).2
  else []

/-- Last.fm's contribution to `search_all`. -/
def lastfmContrib (term : String) (settings : UserSettings)
    (o : HttpResult (List LastFmTrack)) : List MetadataResult :=
  if settings.enable_lastfm && !settings.lastfm_api_key.isEmpty then
    exceptListD ((LastFmClient.mk settings.lastfm_api_key).search term o).2
  else []

/-- `search_all` is the concatenation of the four per-provider
contributions, in the fixed order Apple Music, Spotify, Genius, Last.fm. -/
theorem searchAll_decomp (term : String) (settings : UserSettings) (env : AllEnv) :
    search_all term settings env =
      appleContrib term settings env.apple ++ spotifyContrib term settings env.spotify ++
      geniusContrib term settings env.genius ++ lastfmContrib term settings env.lastfm := by
  have h1 : (appleBranch term settings env.apple).2 = appleContrib term settings env.apple := by
    unfold appleBranch appleContrib; split <;> rfl
  have h2 : (spotifyBranch term settings env.spotify).2 =
      spotifyContrib term settings env.spotify := by
    unfold spotifyBranch spotifyContrib; split <;> rfl
  have h3 : (geniusBranch term settings env.genius).2 =
      geniusContrib term settings env.genius := by
    unfold geniusBranch geniusContrib; split <;> rfl
  have h4 : (lastfmBranch term settings env.lastfm).2 =
      lastfmContrib term settings env.lastfm := by
    unfold lastfmBranch lastfmContrib; split <;> rfl
  show (appleBranch term settings env.apple).2 ++ (spotifyBranch term settings env.spotify).2 ++
      (geniusBranch term settings env.genius).2 ++ (lastfmBranch term settings env.lastfm).2 = _
  rw [h1, h2, h3, h4]

/-! ## Lemmas on the embedded `str::replace` -/

theorem leadsWith_append (l t : List Char) : leadsWith l (l ++ t) = true := by
  induction l with
  | nil => rfl
  | cons c cs ih => simp [leadsWith, ih]

theorem hasSub_cons_false {pat : List Char} {c : Char} {rest : List Char}
    (h : hasSub pat (c :: rest) = false) :
    leadsWith pat (c :: rest) = false ∧ hasSub pat rest = false := by
  simpa [hasSub] using h

theorem replaceFuel_of_not_hasSub (pat rep : List Char) :
    ∀ (s : List Char) (fuel : Nat), s.length ≤ fuel → hasSub pat s = false →
      replaceFuel pat rep fuel s = s := by
  intro s
  induction s with
  | nil => intro fuel _ _; cases fuel <;> rfl
  | cons c rest ih =>
    intro fuel hlen hsub
    obtain ⟨h1, h2⟩ := hasSub_cons_false hsub
    cases fuel with
    | zero => simp at hlen
    | succ f =>
      have hr : rest.length ≤ f := by
        simp only [List.length_cons] at hlen
        omega
      simp [replaceFuel, h1, ih f hr h2]

theorem replaceFuel_single (p : Char) (ps rep b : List Char)
    (hb : hasSub (p :: ps) b = false) :
    ∀ (a : List Char) (fuel : Nat), a.length + 1 + b.length ≤ fuel →
      (∀ x ∈ a, x ≠ p) →
      replaceFuel (p :: ps) rep fuel (a ++ (p :: ps) ++ b) = a ++ rep ++ b := by
  intro a
  induction a with
  | nil =>
    intro fuel hlen _
    cases fuel with
    | zero => simp at hlen
    | succ f =>
      have hlead : leadsWith (p :: ps) (p :: (ps ++ b)) = true := by
        simp [leadsWith, leadsWith_append]
      have hdrop : (p :: (ps ++ b)).drop (p :: ps).length = b := by
        simp
      have hfb : b.length ≤ f := by
        simp only [List.length_nil] at hlen
        omega
      simp [replaceFuel, hlead, hdrop, replaceFuel_of_not_hasSub (p :: ps) rep b f hfb hb]
  | cons x a' ih =>
    intro fuel hlen hx
    cases fuel with
    | zero => simp at hlen
    | succ f =>
      have hxp : (p == x) = false := by
        have hne : x ≠ p := hx x (List.mem_cons_self x a')
        exact beq_eq_false_iff_ne.mpr fun h => hne h.symm
      have hlead : leadsWith (p :: ps) (x :: (a' ++ (p :: (ps ++ b)))) = false := by
        simp [leadsWith, hxp]
      have hlen' : a'.length + 1 + b.length ≤ f := by
        simp only [List.length_cons] at hlen
        omega
      have hx' : ∀ y ∈ a', y ≠ p := fun y hy => hx y (List.mem_cons_of_mem _ hy)
      have hih := ih f hlen' hx'
      simp only [List.cons_append, List.append_assoc] at hih ⊢
      simp [replaceFuel, hlead, hih]

theorem rustReplace_of_not_hasSub (u pat rep : String)
    (h : hasSub pat.data u.data = false) : rustReplace u pat rep = u := by
  unfold rustReplace
  rw [replaceFuel_of_not_hasSub pat.data rep.data u.data u.data.length (Nat.le_refl _) h]

theorem rustReplace_single (a b pat rep : String) (p : Char) (ps : List Char)
    (hpat : pat.data = p :: ps)
    (ha : ∀ x ∈ a.data, x ≠ p) (hb : hasSub pat.data b.data = false) :
    rustReplace (a ++ pat ++ b) pat rep = a ++ rep ++ b := by
  have hdata : (a ++ pat ++ b).data = a.data ++ pat.data ++ b.data := rfl
  have hlen : a.data.length + 1 + b.data.length ≤ (a ++ pat ++ b).data.length := by
    rw [hdata, hpat]
    simp [List.length_append]
    omega
  unfold rustReplace
  rw [hdata, hpat] at *
  rw [replaceFuel_single p ps rep.data b.data hb a.data _ hlen ha]
  rfl

/-! ## Lemmas on the Spotify auth lifecycle -/

theorem authenticate_error_state (c : SpotifyClient) (o : HttpResult String)
    (c' : SpotifyClient) (e : String)
    (h : c.authenticate o = (c', .error e)) : c' = c := by
  unfold SpotifyClient.authenticate at h
  cases o with
  | transportErr m =>
    simp only [Prod.mk.injEq] at h
    exact h.1.symm
  | resp status body =>
    by_cases hs : statusIsSuccess status
    · cases body with
      | none =>
        simp only [hs, Bool.not_true, if_neg, Prod.mk.injEq] at h
        simp at h
        exact h.1.symm
      | some tok =>
        simp [hs] at h
    · simp only [hs] at h
      simp at h
      exact h.1.symm

theorem authenticate_ok_token (c : SpotifyClient) (o : HttpResult String)
    (c' : SpotifyClient) (u : Unit)
    (h : c.authenticate o = (c', .ok u)) : c'.access_token.isSome = true := by
  unfold SpotifyClient.authenticate at h
  cases o with
  | transportErr m => simp at h
  | resp status body =>
    by_cases hs : statusIsSuccess status
    · cases body with
      | none => simp [hs] at h
      | some tok =>
        simp [hs] at h
        rw [← h]
        rfl
    · simp [hs] at h

theorem spotifySearchCore_no_panic (c : SpotifyClient) (term : String) (env : SpotifyEnv)
    (hc : c.access_token.isSome = true) :
    (spotifySearchCore c term env).2.2 ≠ SpotifyOutcome.panicked := by
  unfold spotifySearchCore
  rcases hx : c.access_token with _ | tok
  · rw [hx] at hc; simp at hc
  · cases env.searchResp with
    | transportErr e => simp
    | resp status body =>
      by_cases h401 : (status == 401) = true
      · rcases hA : c.authenticate env.reauthResp with ⟨c2, r2⟩
        cases r2 with
        | error e => simp [h401, hA]
        | ok u =>
          have h2 := authenticate_ok_token c env.reauthResp c2 u hA
          rcases ht : c2.access_token with _ | token2
          · rw [ht] at h2; simp at h2
          · cases hr : c2.search_retry term token2 env.retryResp <;>
              simp [h401, hA, ht, hr]
      · by_cases hs : statusIsSuccess status
        · cases body <;> simp [h401, hs]
        · simp [h401, hs]

theorem spotifySearch_no_panic (c : SpotifyClient) (term : String) (env : SpotifyEnv) :
    (c.search term env).2.2 ≠ SpotifyOutcome.panicked := by
  unfold SpotifyClient.search
  rcases hx : c.access_token with _ | tok
  · rcases hA : c.authenticate env.authResp with ⟨c1, r1⟩
    cases r1 with
    | error e => simp [hx, hA]
    | ok u =>
      have h1 := authenticate_ok_token c env.authResp c1 u hA
      have := spotifySearchCore_no_panic c1 term env h1
      simp [hx, hA]
      exact this
  · have hns : c.access_token.isNone = false := by rw [hx]; rfl
    simp only [hns, Bool.false_eq_true, if_neg, not_false_eq_true]
    exact spotifySearchCore_no_panic c term env (by rw [hx]; rfl)

/-! ## Lemmas on the HTTP-call traces -/

theorem apple_search_trace (term : String) (o : HttpResult (List ItunesTrack)) :
    (apple_music.search term o).1 = [HttpCall.appleSearch] := by
  unfold apple_music.search
  cases o with
  | transportErr e => rfl
  | resp status body => cases body <;> rfl

theorem genius_search_trace (c : GeniusClient) (term : String)
    (o : HttpResult (List GeniusHit)) :
    (c.search term o).1 =
      if c.access_token.isEmpty then [] else [HttpCall.geniusSearch] := by
  unfold GeniusClient.search
  cases he : c.access_token.isEmpty
  · cases o with
    | transportErr e => simp
    | resp status body =>
      by_cases hs : statusIsSuccess status
      · cases body <;> simp [hs]
      · simp [hs]
  · simp

theorem lastfm_search_trace (c : LastFmClient) (term : String)
    (o : HttpResult (List LastFmTrack)) :
    (c.search term o).1 =
      if c.api_key.isEmpty then [] else [HttpCall.lastfmSearch] := by
  unfold LastFmClient.search
  cases he : c.api_key.isEmpty
  · cases o with
    | transportErr e => simp
    | resp status body =>
      by_cases hs : statusIsSuccess status
      · cases body <;> simp [hs]
      · simp [hs]
  · simp

theorem spotifySearchCore_trace_provider (c : SpotifyClient) (term : String)
    (env : SpotifyEnv) :
    ∀ x ∈ (spotifySearchCore c term env).2.1, x.provider = Provider.spotify := by
  unfold spotifySearchCore
  rcases hx : c.access_token with _ | tok
  · simp
  · cases env.searchResp with
    | transportErr e => simp [HttpCall.provider]
    | resp status body =>
      by_cases h401 : (status == 401) = true
      · rcases hA : c.authenticate env.reauthResp with ⟨c2, r2⟩
        cases r2 with
        | error e => simp [h401, hA, HttpCall.provider]
        | ok u =>
          rcases ht : c2.access_token with _ | token2
          · simp [h401, hA, ht, HttpCall.provider]
          · cases hr : c2.search_retry term token2 env.retryResp <;>
              simp [h401, hA, ht, hr, HttpCall.provider]
      · by_cases hs : statusIsSuccess status
        · cases body <;> simp [h401, hs, HttpCall.provider]
        · simp [h401, hs, HttpCall.provider]

theorem spotifySearch_trace_provider (c : SpotifyClient) (term : String)
    (env : SpotifyEnv) :
    ∀ x ∈ (c.search term env).2.1, x.provider = Provider.spotify := by
  unfold SpotifyClient.search
  rcases hx : c.access_token with _ | tok
  · rcases hA : c.authenticate env.authResp with ⟨c1, r1⟩
    cases r1 with
    | error e => simp [hx, hA, HttpCall.provider]
    | ok u =>
      have := spotifySearchCore_trace_provider c1 term env
      simp only [hx, hA]
      simp only [Option.isNone_none, if_pos]
      intro x hmem
      rcases List.mem_cons.mp hmem with h | h
      · rw [h]; rfl
      · exact this x h
  · have hns : c.access_token.isNone = false := by rw [hx]; rfl
    simp only [hns, Bool.false_eq_true, if_neg, not_false_eq_true]
    exact spotifySearchCore_trace_provider c term env

theorem spotifySearch_trace_cold (c : SpotifyClient) (term : String) (env : SpotifyEnv)
    (hc : c.access_token = none) : (c.search term env).2.1 ≠ [] := by
  unfold SpotifyClient.search
  rcases hA : c.authenticate env.authResp with ⟨c1, r1⟩
  cases r1 with
  | error e => simp [hc, hA]
  | ok u => simp [hc, hA]

theorem providerCalls_append (p : Provider) (t1 t2 : List HttpCall) :
    providerCalls p (t1 ++ t2) = providerCalls p t1 ++ providerCalls p t2 :=
  List.filter_append t1 t2

theorem providerCalls_nil_of_ne (p q : Provider) (hne : q ≠ p) (tr : List HttpCall)
    (h : ∀ x ∈ tr, x.provider = q) : providerCalls p tr = [] := by
  unfold providerCalls
  rw [List.filter_eq_nil_iff]
  intro a ha
  rw [h a ha]
  simp [hne]

theorem providerCalls_self (p : Provider) (tr : List HttpCall)
    (h : ∀ x ∈ tr, x.provider = p) : providerCalls p tr = tr := by
  unfold providerCalls
  rw [List.filter_eq_self]
  intro a ha
  simp [h a ha]

theorem searchAllTrace_decomp (term : String) (settings : UserSettings) (env : AllEnv) :
    searchAllTrace term settings env =
      (appleBranch term settings env.apple).1 ++ (spotifyBranch term settings env.spotify).1 ++
      (geniusBranch term settings env.genius).1 ++ (lastfmBranch term settings env.lastfm).1 := rfl

theorem appleBranch_trace (term : String) (settings : UserSettings)
    (o : HttpResult (List ItunesTrack)) :
    (appleBranch term settings o).1 =
      if settings.enable_apple_music then [HttpCall.appleSearch] else [] := by
  unfold appleBranch
  cases h : settings.enable_apple_music
  · simp [h]
  · simp [h, apple_search_trace]

theorem geniusBranch_trace (term : String) (settings : UserSettings)
    (o : HttpResult (List GeniusHit)) :
    (geniusBranch term settings o).1 =
      if settings.enable_genius && !settings.genius_token.isEmpty then
        [HttpCall.geniusSearch]
      else [] := by
  unfold geniusBranch
  cases h : (settings.enable_genius && !settings.genius_token.isEmpty)
  · simp [h]
  · have h2 := (Bool.and_eq_true _ _).mp h
    have he : settings.genius_token.isEmpty = false := by
      have := h2.2; simp at this; exact this
    simp [h, genius_search_trace, he]

theorem lastfmBranch_trace (term : String) (settings : UserSettings)
    (o : HttpResult (List LastFmTrack)) :
    (lastfmBranch term settings o).1 =
      if settings.enable_lastfm && !settings.lastfm_api_key.isEmpty then
        [HttpCall.lastfmSearch]
      else [] := by
  unfold lastfmBranch
  cases h : (settings.enable_lastfm && !settings.lastfm_api_key.isEmpty)
  · simp [h]
  · have h2 := (Bool.and_eq_true _ _).mp h
    have he : settings.lastfm_api_key.isEmpty = false := by
      have := h2.2; simp at this; exact this
    simp [h, lastfm_search_trace, he]

theorem appleBranch_trace_provider (term : String) (settings : UserSettings)
    (o : HttpResult (List ItunesTrack)) :
    ∀ x ∈ (appleBranch term settings o).1, x.provider = Provider.appleMusic := by
  rw [appleBranch_trace]
  split
  · intro x hx
    simp at hx
    rw [hx]; rfl
  · intro x hx
    simp at hx

theorem spotifyBranch_trace_provider (term : String) (settings : UserSettings)
    (senv : SpotifyEnv) :
    ∀ x ∈ (spotifyBranch term settings senv).1, x.provider = Provider.spotify := by
  unfold spotifyBranch
  cases h : (settings.enable_spotify && !settings.spotify_id.isEmpty)
  · simp [h]
  · simp only [h, if_true]
    exact spotifySearch_trace_provider _ term senv

theorem geniusBranch_trace_provider (term : String) (settings : UserSettings)
    (o : HttpResult (List GeniusHit)) :
    ∀ x ∈ (geniusBranch term settings o).1, x.provider = Provider.genius := by
  rw [geniusBranch_trace]
  split
  · intro x hx
    simp at hx
    rw [hx]; rfl
  · intro x hx
    simp at hx

theorem lastfmBranch_trace_provider (term : String) (settings : UserSettings)
    (o : HttpResult (List LastFmTrack)) :
    ∀ x ∈ (lastfmBranch term settings o).1, x.provider = Provider.lastfm := by
  rw [lastfmBranch_trace]
  split
  · intro x hx
    simp at hx
    rw [hx]; rfl
  · intro x hx
    simp at hx

theorem providerCalls_apple (term : String) (settings : UserSettings) (env : AllEnv) :
    providerCalls Provider.appleMusic (searchAllTrace term settings env) =
      (appleBranch term settings env.apple).1 := by
  rw [searchAllTrace_decomp, providerCalls_append, providerCalls_append, providerCalls_append]
  rw [providerCalls_self _ _ (appleBranch_trace_provider term settings env.apple),
    providerCalls_nil_of_ne _ _ (by decide) _ (spotifyBranch_trace_provider term settings env.spotify),
    providerCalls_nil_of_ne _ _ (by decide) _ (geniusBranch_trace_provider term settings env.genius),
    providerCalls_nil_of_ne _ _ (by decide) _ (lastfmBranch_trace_provider term settings env.lastfm)]
  simp

theorem providerCalls_spotify (term : String) (settings : UserSettings) (env : AllEnv) :
    providerCalls Provider.spotify (searchAllTrace term settings env) =
      (spotifyBranch term settings env.spotify).1 := by
  rw [searchAllTrace_decomp, providerCalls_append, providerCalls_append, providerCalls_append]
  rw [providerCalls_self _ _ (spotifyBranch_trace_provider term settings env.spotify),
    providerCalls_nil_of_ne _ _ (by decide) _ (appleBranch_trace_provider term settings env.apple),
    providerCalls_nil_of_ne _ _ (by decide) _ (geniusBranch_trace_provider term settings env.genius),
    providerCalls_nil_of_ne _ _ (by decide) _ (lastfmBranch_trace_provider term settings env.lastfm)]
  simp

theorem providerCalls_genius (term : String) (settings : UserSettings) (env : AllEnv) :
    providerCalls Provider.genius (searchAllTrace term settings env) =
      (geniusBranch term settings env.genius).1 := by
  rw [searchAllTrace_decomp, providerCalls_append, providerCalls_append, providerCalls_append]
  rw [providerCalls_self _ _ (geniusBranch_trace_provider term settings env.genius),
    providerCalls_nil_of_ne _ _ (by decide) _ (appleBranch_trace_provider term settings env.apple),
    providerCalls_nil_of_ne _ _ (by decide) _ (spotifyBranch_trace_provider term settings env.spotify),
    providerCalls_nil_of_ne _ _ (by decide) _ (lastfmBranch_trace_provider term settings env.lastfm)]
  simp

theorem providerCalls_lastfm (term : String) (settings : UserSettings) (env : AllEnv) :
    providerCalls Provider.lastfm (searchAllTrace term settings env) =
      (lastfmBranch term settings env.lastfm).1 := by
  rw [searchAllTrace_decomp, providerCalls_append, providerCalls_append, providerCalls_append]
  rw [providerCalls_self _ _ (lastfmBranch_trace_provider term settings env.lastfm),
    providerCalls_nil_of_ne _ _ (by decide) _ (appleBranch_trace_provider term settings env.apple),
    providerCalls_nil_of_ne _ _ (by decide) _ (spotifyBranch_trace_provider term settings env.spotify),
    providerCalls_nil_of_ne _ _ (by decide) _ (geniusBranch_trace_provider term settings env.genius)]
  simp

theorem spotifyBranch_trace_nonempty (term : String) (settings : UserSettings)
    (senv : SpotifyEnv)
    (h : (settings.enable_spotify && !settings.spotify_id.isEmpty) = true) :
    (spotifyBranch term settings senv).1 ≠ [] := by
  unfold spotifyBranch
  simp only [h, if_true]
  exact spotifySearch_trace_cold _ term senv rfl

/-! ## Claim theorems -/

/-- C8: for every Apple/iTunes track in a parsed response, the normalized
`cover_url` is the artwork URL with its `100x100` resolution token
replaced by `600x600` and the URL otherwise identical (for a URL
decomposing as `a ++ "100x100" ++ b` with no further occurrence, the
result is exactly `a ++ "600x600" ++ b`); a URL without the token passes
through unchanged; an absent artwork field yields an absent `cover_url`. -/
theorem apple_cover_100x100_to_600x600 (t : ItunesTrack) :
    (t.artwork_url = none → (appleNormalize t).cover_url = none) ∧
    (∀ u, t.artwork_url = some u →
      (appleNormalize t).cover_url = some (rustReplace u "100x100" "600x600")) ∧
    (∀ u : String, hasSub ("100x100").data u.data = false →
      rustReplace u "100x100" "600x600" = u) ∧
    (∀ a b : String, (∀ x ∈ a.data, x ≠ '1') →
      hasSub ("100x100").data b.data = false →
      rustReplace (a ++ "100x100" ++ b) "100x100" "600x600" = a ++ "600x600" ++ b) := by
  refine ⟨?_, ?_, ?_, ?_⟩
  · intro h; simp [appleNormalize, h]
  · intro u h; simp [appleNormalize, h]
  · intro u h; exact rustReplace_of_not_hasSub u _ _ h
  · intro a b ha hb
    exact rustReplace_single a b "100x100" "600x600" '1' ("00x100").data rfl ha hb

/-- Witness for C8 at the spec's own example URL. -/
theorem apple_cover_100x100_to_600x600_witness :
    (appleNormalize ⟨some "Song A", some "Artist A", some "Album A",
        some "http://x/100x100bb.jpg"⟩).cover_url = some "http://x/600x600bb.jpg" ∧
    rustReplace ("http://x/" ++ "100x100" ++ "bb.jpg") "100x100" "600x600" =
      "http://x/" ++ "600x600" ++ "bb.jpg" := by
  constructor
  · have h := (apple_cover_100x100_to_600x600 ⟨some "Song A", some "Artist A", some "Album A",
      some "http://x/100x100bb.jpg"⟩).2.1 "http://x/100x100bb.jpg" rfl
    rw [h]
    decide
  · exact (apple_cover_100x100_to_600x600 ⟨none, none, none, none⟩).2.2.2 "http://x/" "bb.jpg"
      (by decide) (by decide)

/-- C9 counterexample: an image list holding an `extralarge`-tagged image
with empty URL before an `extralarge`-tagged image with non-empty URL.
An image tagged `extralarge` with non-empty URL exists, yet the
normalized `cover_url` is absent, because the code takes the FIRST image
matching the tag and only then tests its URL for emptiness. -/
theorem lastfm_cover_selection_counterexample :
    (∃ i ∈ [LastFmImage.mk "" "extralarge", LastFmImage.mk "http://img/xl.png" "extralarge"],
      i.size = "extralarge" ∧ i.url ≠ "") ∧
    (lastfmNormalize ⟨"T", "A",
      some [LastFmImage.mk "" "extralarge",
        LastFmImage.mk "http://img/xl.png" "extralarge"]⟩).cover_url = none := by
  constructor
  · exact ⟨LastFmImage.mk "http://img/xl.png" "extralarge", by decide, rfl, by decide⟩
  · rfl

/-- C9 amended: the normalized Last.fm `cover_url` is the URL of the
FIRST image tagged `extralarge` provided that URL is non-empty; otherwise
the URL of the FIRST image tagged `large` provided that URL is non-empty;
otherwise absent — in particular absent for a missing or empty image
list.  (First match by tag is selected before the non-empty check, so a
later `extralarge` image with non-empty URL is never considered.) -/
theorem lastfm_cover_selection (images : List LastFmImage) :
    (bestImage none = none) ∧
    (bestImage (some []) = none) ∧
    (∀ img, images.find? (fun i => i.size == "extralarge") = some img →
      img.url.isEmpty = false → bestImage (some images) = some img.url) ∧
    ((∀ img, images.find? (fun i => i.size == "extralarge") = some img →
        img.url.isEmpty = true) →
      ∀ img, images.find? (fun i => i.size == "large") = some img →
        img.url.isEmpty = false → bestImage (some images) = some img.url) ∧
    ((∀ img, images.find? (fun i => i.size == "extralarge") = some img →
        img.url.isEmpty = true) →
      (∀ img, images.find? (fun i => i.size == "large") = some img →
        img.url.isEmpty = true) →
      bestImage (some images) = none) := by
  refine ⟨rfl, rfl, ?_, ?_, ?_⟩
  · intro img hf hu
    simp [bestImage, hf, hu]
  · intro hxl img hf hu
    cases hXL : images.find? (fun i => i.size == "extralarge") with
    | none => simp [bestImage, hXL, hf, hu]
    | some i0 =>
      have h0 := hxl i0 hXL
      simp [bestImage, hXL, h0, hf, hu]
  · intro hxl hlg
    cases hXL : images.find? (fun i => i.size == "extralarge") with
    | none =>
      cases hLG : images.find? (fun i => i.size == "large") with
      | none => simp [bestImage, hXL, hLG]
      | some j => have hj := hlg j hLG; simp [bestImage, hXL, hLG, hj]
    | some i0 =>
      have h0 := hxl i0 hXL
      cases hLG : images.find? (fun i => i.size == "large") with
      | none => simp [bestImage, hXL, h0, hLG]
      | some j => have hj := hlg j hLG; simp [bestImage, hXL, h0, hLG, hj]

/-- Witness for C9 at the spec's large-only scenario. -/
theorem lastfm_cover_selection_witness :
    bestImage (some [LastFmImage.mk "u1" "large"]) = some "u1" := by
  have hvac : ∀ img : LastFmImage,
      ([LastFmImage.mk "u1" "large"].find? (fun i => i.size == "extralarge")) = some img →
      img.url.isEmpty = true := by
    intro img h
    rw [show ([LastFmImage.mk "u1" "large"].find? (fun i => i.size == "extralarge")) = none
      from by decide] at h
    exact Option.noConfusion h
  exact (lastfm_cover_selection [LastFmImage.mk "u1" "large"]).2.2.2.1 hvac
    (LastFmImage.mk "u1" "large") (by decide) (by decide)

/-- C10: a successful return of `authenticate` always leaves a token in
place (`access_token.isSome`), and hence the `unwrap()` of the token in
`search` — on both the initial path and the 401 re-authentication path —
never fires: no execution of `search` yields the `panicked` outcome. -/
theorem spotify_unwrap_never_panics :
    (∀ (c : SpotifyClient) (o : HttpResult String) (c' : SpotifyClient) (u : Unit),
      c.authenticate o = (c', .ok u) → c'.access_token.isSome = true) ∧
    (∀ (c : SpotifyClient) (term : String) (env : SpotifyEnv),
      (c.search term env).2.2 ≠ SpotifyOutcome.panicked) :=
  ⟨authenticate_ok_token, spotifySearch_no_panic⟩

/-- Witness for C10 on a concrete cold client and successful exchange. -/
theorem spotify_unwrap_never_panics_witness :
    ((SpotifyClient.new "i" "s").authenticate
      (HttpResult.resp 200 (some "tok"))).1.access_token.isSome = true ∧
    ((SpotifyClient.new "i" "s").search "q"
      ⟨HttpResult.resp 200 (some "tok"), HttpResult.resp 200 (some []),
       HttpResult.resp 200 (some "t2"), HttpResult.resp 200 (some [])⟩).2.2 ≠
      SpotifyOutcome.panicked := by
  constructor
  · exact spotify_unwrap_never_panics.1 (SpotifyClient.new "i" "s")
      (HttpResult.resp 200 (some "tok")) ⟨"i", "s", some "tok"⟩ () rfl
  · exact spotify_unwrap_never_panics.2 (SpotifyClient.new "i" "s") "q" _

/-- C4 counterexample: a client holding `some "old"` receives a 401 on
its first search; the re-authentication token exchange fails with
status 500.  The claim requires `access_token` to be absent afterwards
(cleared at the start of the re-authentication), but the code never
clears it: the final state still holds the old token, while the auth
error is surfaced. -/
theorem auth_failure_unauthenticated_counterexample :
    ((⟨"id", "sec", some "old"⟩ : SpotifyClient).search "q"
      ⟨HttpResult.resp 200 (some "unused"), HttpResult.resp 401 none,
       HttpResult.resp 500 none, HttpResult.resp 200 (some [])⟩).1.access_token
      = some "old" ∧
    ((⟨"id", "sec", some "old"⟩ : SpotifyClient).search "q"
      ⟨HttpResult.resp 200 (some "unused"), HttpResult.resp 401 none,
       HttpResult.resp 500 none, HttpResult.resp 200 (some [])⟩).2.2
      = SpotifyOutcome.err ("Auth failed with status: " ++ toString 500) := by
  exact ⟨rfl, rfl⟩

/-- C4 amended: a failed token exchange (transport failure, non-2xx
status, or unparsable body) surfaces an auth error and leaves the client
state exactly as it was — the token is never cleared.  On the cold path
(no cached token) the state therefore remains Unauthenticated and the
error is surfaced by `search`; but on the 401 re-authentication path the
old token is NOT cleared first, so a failed re-authentication leaves the
client still holding the stale token. -/
theorem auth_failure_leaves_state (c : SpotifyClient) (o : HttpResult String) :
    (∀ c' e, c.authenticate o = (c', .error e) → c' = c) ∧
    (c.access_token = none → ∀ c' e, c.authenticate o = (c', .error e) →
      c'.access_token = none) ∧
    (∀ term env, c.access_token = none → env.authResp = o →
      ∀ c' e, c.authenticate o = (c', .error e) →
        c.search term env = (c, [HttpCall.spotifyAuth], SpotifyOutcome.err e)) := by
  refine ⟨?_, ?_, ?_⟩
  · exact fun c' e h => authenticate_error_state c o c' e h
  · intro hn c' e h
    rw [authenticate_error_state c o c' e h]
    exact hn
  · intro term env hn henv c' e h
    have hc' := authenticate_error_state c o c' e h
    unfold SpotifyClient.search
    rw [hn, henv, h, hc']
    rfl

/-- Witness for C4 on a concrete cold client and failing exchange. -/
theorem auth_failure_leaves_state_witness :
    (SpotifyClient.new "id" "sec").search "q"
      ⟨HttpResult.resp 500 none, HttpResult.resp 200 (some []),
       HttpResult.resp 200 none, HttpResult.resp 200 (some [])⟩ =
    (SpotifyClient.new "id" "sec", [HttpCall.spotifyAuth],
      SpotifyOutcome.err ("Auth failed with status: " ++ toString 500)) := by
  exact (auth_failure_leaves_state (SpotifyClient.new "id" "sec")
      (HttpResult.resp 500 none)).2.2 "q"
    ⟨HttpResult.resp 500 none, HttpResult.resp 200 (some []),
     HttpResult.resp 200 none, HttpResult.resp 200 (some [])⟩
    rfl rfl (SpotifyClient.new "id" "sec") ("Auth failed with status: " ++ toString 500) rfl

/-- C5 counterexample: Spotify's retried search after a 401 gets a
response with status 500 whose body parses; the claim requires the call
to fail with a request error carrying 500 without parsing the body, but
the retried search performs no status check and the call SUCCEEDS with
the parsed results. -/
theorem non2xx_request_error_counterexample :
    ((⟨"id", "sec", some "tok"⟩ : SpotifyClient).search "q"
      ⟨HttpResult.resp 200 (some "u"), HttpResult.resp 401 none,
       HttpResult.resp 200 (some "tok2"),
       HttpResult.resp 500 (some [⟨"T", ⟨"A", []⟩, []⟩])⟩).2.2
      = SpotifyOutcome.ok [⟨"T", "", "A", none, "Spotify"⟩] := by
  rfl

/-- C5 amended: Genius, Last.fm and Spotify's FIRST search attempt fail
on a non-2xx status (other than Spotify's specially handled 401) with a
request error carrying the status code, without parsing the body (the
result is the same for every body).  Apple's search and Spotify's
RETRIED search, however, perform no status check at all: their result is
independent of the status code and comes from parsing the body. -/
theorem non2xx_status_handling :
    (∀ (c : GeniusClient) (term : String) (status : Nat) (body : Option (List GeniusHit)),
      c.access_token.isEmpty = false → statusIsSuccess status = false →
      (c.search term (.resp status body)).2 =
        .error ("Genius request failed with status: " ++ toString status)) ∧
    (∀ (c : LastFmClient) (term : String) (status : Nat) (body : Option (List LastFmTrack)),
      c.api_key.isEmpty = false → statusIsSuccess status = false →
      (c.search term (.resp status body)).2 =
        .error ("Last.fm request failed with status: " ++ toString status)) ∧
    (∀ (c : SpotifyClient) (tok term : String) (env : SpotifyEnv) (status : Nat)
        (body : Option (List SpotifyTrack)),
      c.access_token = some tok → env.searchResp = .resp status body →
      (status == 401) = false → statusIsSuccess status = false →
      (c.search term env).2.2 =
        SpotifyOutcome.err ("Search failed with status: " ++ toString status)) ∧
    (∀ (term : String) (status status' : Nat) (body : Option (List ItunesTrack)),
      apple_music.search term (.resp status body) =
        apple_music.search term (.resp status' body)) ∧
    (∀ (c : SpotifyClient) (term tok : String) (status status' : Nat)
        (body : Option (List SpotifyTrack)),
      c.search_retry term tok (.resp status body) =
        c.search_retry term tok (.resp status' body)) := by
  refine ⟨?_, ?_, ?_, ?_, ?_⟩
  · intro c term status body he hs
    unfold GeniusClient.search
    simp [he, hs]
  · intro c term status body he hs
    unfold LastFmClient.search
    simp [he, hs]
  · intro c tok term env status body hc hr h401 hs
    unfold SpotifyClient.search spotifySearchCore
    rw [hc, hr]
    simp [h401, hs]
  · intro term status status' body
    unfold apple_music.search
    cases body <;> rfl
  · intro c term tok status status' body
    unfold SpotifyClient.search_retry
    cases body <;> rfl

/-- Witness for C5 on concrete non-2xx responses. -/
theorem non2xx_status_handling_witness :
    ((⟨"g"⟩ : GeniusClient).search "q" (.resp 500 none)).2 =
      .error ("Genius request failed with status: " ++ toString 500) ∧
    ((⟨"k"⟩ : LastFmClient).search "q" (.resp 404 none)).2 =
      .error ("Last.fm request failed with status: " ++ toString 404) ∧
    ((⟨"id", "sec", some "tok"⟩ : SpotifyClient).search "q"
      ⟨HttpResult.resp 200 (some "u"), HttpResult.resp 500 none,
       HttpResult.resp 200 (some "t2"), HttpResult.resp 200 (some [])⟩).2.2 =
      SpotifyOutcome.err ("Search failed with status: " ++ toString 500) := by
  refine ⟨?_, ?_, ?_⟩
  · exact non2xx_status_handling.1 ⟨"g"⟩ "q" 500 none rfl rfl
  · exact non2xx_status_handling.2.1 ⟨"k"⟩ "q" 404 none rfl rfl
  · exact non2xx_status_handling.2.2.1 ⟨"id", "sec", some "tok"⟩ "tok" "q" _ 500 none
      rfl rfl rfl rfl

/-- C2 counterexample: a cached client gets a 401 on its first search,
re-authenticates successfully, and the retried search returns a SECOND
consecutive 401 whose body happens to parse as a search response.  The
claim says that failure (including a second consecutive 401) is surfaced
to the caller, but the retried search performs no status check: the call
returns the parsed results as a success. -/
theorem spotify_single_retry_counterexample :
    ((⟨"id", "sec", some "tok"⟩ : SpotifyClient).search "q"
      ⟨HttpResult.resp 200 (some "u"), HttpResult.resp 401 none,
       HttpResult.resp 200 (some "tok2"),
       HttpResult.resp 401 (some [⟨"T", ⟨"A", []⟩, []⟩])⟩).2.2
      = SpotifyOutcome.ok [⟨"T", "", "A", none, "Spotify"⟩] := by
  rfl

/-- C2 amended: on a 401 first search while holding a cached token, the
client performs exactly one re-authentication (one token request in the
trace); when the re-authentication succeeds it performs exactly one
retried search, whose outcome (success or failure) is returned as is —
no further authentication or search attempt; when the re-authentication
fails, its error is surfaced and no retried search happens.  A second
consecutive 401 is surfaced as a failure only through the body parse
(the retry performs no status check): a retry response with an
unparsable body yields the retry parse error. -/
theorem spotify_single_retry (c : SpotifyClient) (t term : String) (env : SpotifyEnv)
    (b : Option (List SpotifyTrack))
    (hc : c.access_token = some t) (hr : env.searchResp = .resp 401 b) :
    ((c.search term env).2.1.count HttpCall.spotifyAuth = 1) ∧
    (∀ c2 u, c.authenticate env.reauthResp = (c2, .ok u) →
      ((c.search term env).2.1 =
        [HttpCall.spotifySearch, HttpCall.spotifyAuth, HttpCall.spotifySearch]) ∧
      (∀ tok2, c2.access_token = some tok2 →
        (∀ e, c2.search_retry term tok2 env.retryResp = .error e →
          (c.search term env).2.2 = SpotifyOutcome.err e) ∧
        (∀ rs, c2.search_retry term tok2 env.retryResp = .ok rs →
          (c.search term env).2.2 = SpotifyOutcome.ok rs))) ∧
    (∀ c2 e, c.authenticate env.reauthResp = (c2, .error e) →
      ((c.search term env).2.1 = [HttpCall.spotifySearch, HttpCall.spotifyAuth]) ∧
      (c.search term env).2.2 = SpotifyOutcome.err e) ∧
    (∀ st, env.retryResp = .resp st none →
      ∀ c2 u, c.authenticate env.reauthResp = (c2, .ok u) →
        (c.search term env).2.2 = SpotifyOutcome.err "Retry search parse failed") := by
  have hshape : c.search term env = spotifySearchCore c term env := by
    unfold SpotifyClient.search
    rw [hc]
    rfl
  refine ⟨?_, ?_, ?_, ?_⟩
  · rw [hshape]
    unfold spotifySearchCore
    rw [hc, hr]
    rcases hA : c.authenticate env.reauthResp with ⟨c2, r2⟩
    cases r2 with
    | error e => simp
    | ok u =>
      rcases ht : c2.access_token with _ | tok2
      · simp [ht]
      · cases hrt : c2.search_retry term tok2 env.retryResp <;> simp [ht, hrt]
  · intro c2 u hA
    have hso : c2.access_token.isSome = true := authenticate_ok_token c env.reauthResp c2 u hA
    rcases ht : c2.access_token with _ | tok2
    · rw [ht] at hso; simp at hso
    · constructor
      · rw [hshape]
        unfold spotifySearchCore
        rw [hc, hr]
        cases hrt : c2.search_retry term tok2 env.retryResp <;> simp [hA, ht, hrt]
      · intro tok2' ht'
        injection ht' with htok
        subst htok
        constructor
        · intro e hrt
          rw [hshape]
          unfold spotifySearchCore
          rw [hc, hr]
          simp [hA, ht, hrt]
        · intro rs hrt
          rw [hshape]
          unfold spotifySearchCore
          rw [hc, hr]
          simp [hA, ht, hrt]
  · intro c2 e hA
    rw [hshape]
    unfold spotifySearchCore
    rw [hc, hr, hA]
    exact ⟨rfl, rfl⟩
  · intro st hretry c2 u hA
    have hso : c2.access_token.isSome = true := authenticate_ok_token c env.reauthResp c2 u hA
    rcases ht : c2.access_token with _ | tok2
    · rw [ht] at hso; simp at hso
    · have hrt : c2.search_retry term tok2 env.retryResp = .error "Retry search parse failed" := by
        unfold SpotifyClient.search_retry
        rw [hretry]
      rw [hshape]
      unfold spotifySearchCore
      rw [hc, hr]
      simp [hA, ht, hrt]

/-- Witness for C2: cached client, first search 401, successful
re-authentication, retried search failing at transport level; the trace
is exactly [search, auth, search] and the retry failure is surfaced. -/
theorem spotify_single_retry_witness :
    ((⟨"id", "sec", some "tok"⟩ : SpotifyClient).search "q"
      ⟨HttpResult.resp 200 (some "u"), HttpResult.resp 401 none,
       HttpResult.resp 200 (some "tok2"), HttpResult.transportErr "down"⟩).2.1 =
      [HttpCall.spotifySearch, HttpCall.spotifyAuth, HttpCall.spotifySearch] ∧
    ((⟨"id", "sec", some "tok"⟩ : SpotifyClient).search "q"
      ⟨HttpResult.resp 200 (some "u"), HttpResult.resp 401 none,
       HttpResult.resp 200 (some "tok2"), HttpResult.transportErr "down"⟩).2.2 =
      SpotifyOutcome.err ("Retry search request failed: " ++ "down") := by
  have h := spotify_single_retry (⟨"id", "sec", some "tok"⟩ : SpotifyClient) "tok" "q"
    ⟨HttpResult.resp 200 (some "u"), HttpResult.resp 401 none,
     HttpResult.resp 200 (some "tok2"), HttpResult.transportErr "down"⟩ none rfl rfl
  refine ⟨(h.2.1 ⟨"id", "sec", some "tok2"⟩ () rfl).1, ?_⟩
  exact (((h.2.1 ⟨"id", "sec", some "tok2"⟩ () rfl).2 "tok2" rfl).1
    ("Retry search request failed: " ++ "down") rfl)

/-- C3 counterexample: settings enabling Spotify with a non-empty
`spotify_id` but an EMPTY `spotify_secret`.  The claim says Spotify is
dispatched only when both credentials are non-empty, yet `search_all`
performs an HTTP call to Spotify's token endpoint (the guard never
inspects `spotify_secret`). -/
theorem provider_eligibility_counterexample :
    (⟨"id", "", "", "", false, true, false, false⟩ : UserSettings).spotify_secret = "" ∧
    searchAllTrace "q" ⟨"id", "", "", "", false, true, false, false⟩
      ⟨HttpResult.resp 200 (some []),
       ⟨HttpResult.transportErr "x", HttpResult.resp 200 (some []),
        HttpResult.resp 200 (some "t"), HttpResult.resp 200 (some [])⟩,
       HttpResult.resp 200 (some []), HttpResult.resp 200 (some [])⟩
      = [HttpCall.spotifyAuth] := by
  exact ⟨rfl, rfl⟩

/-- C3 amended: `search_all` performs HTTP calls to a provider's
endpoints exactly when the provider's coded guard holds: Apple Music iff
its enable flag is set (no credential); Spotify iff `enable_spotify` and
`spotify_id` is non-empty — `spotify_secret` is NOT checked; Genius iff
`enable_genius` and `genius_token` is non-empty; Last.fm iff
`enable_lastfm` and `lastfm_api_key` is non-empty. -/
theorem provider_dispatch_iff (term : String) (settings : UserSettings) (env : AllEnv) :
    (providerCalls Provider.appleMusic (searchAllTrace term settings env) ≠ [] ↔
      settings.enable_apple_music = true) ∧
    (providerCalls Provider.spotify (searchAllTrace term settings env) ≠ [] ↔
      (settings.enable_spotify = true ∧ settings.spotify_id ≠ "")) ∧
    (providerCalls Provider.genius (searchAllTrace term settings env) ≠ [] ↔
      (settings.enable_genius = true ∧ settings.genius_token ≠ "")) ∧
    (providerCalls Provider.lastfm (searchAllTrace term settings env) ≠ [] ↔
      (settings.enable_lastfm = true ∧ settings.lastfm_api_key ≠ "")) := by
  refine ⟨?_, ?_, ?_, ?_⟩
  · rw [providerCalls_apple, appleBranch_trace]
    cases h : settings.enable_apple_music <;> simp [h]
  · rw [providerCalls_spotify]
    cases h : (settings.enable_spotify && !settings.spotify_id.isEmpty)
    · have := Bool.and_eq_false_iff.mp h
      unfold spotifyBranch
      simp only [h, if_neg, Bool.false_eq_true, not_false_eq_true]
      simp only [ne_eq, not_true_eq_false, false_iff, not_and]
      intro he hid
      rcases this with h1 | h2
      · rw [he] at h1; exact Bool.noConfusion h1
      · have : settings.spotify_id.isEmpty = true := by
          cases hh : settings.spotify_id.isEmpty
          · rw [hh] at h2; exact Bool.noConfusion h2
          · rfl
        exact hid ((String.isEmpty_iff settings.spotify_id).mp this)
    · have h2 := (Bool.and_eq_true _ _).mp h
      constructor
      · intro _
        refine ⟨h2.1, ?_⟩
        intro hid
        have : settings.spotify_id.isEmpty = true := by rw [hid]; rfl
        rw [this] at h2
        simp at h2
      · intro _
        exact spotifyBranch_trace_nonempty term settings env.spotify h
  · rw [providerCalls_genius, geniusBranch_trace]
    cases h : (settings.enable_genius && !settings.genius_token.isEmpty)
    · have := Bool.and_eq_false_iff.mp h
      simp only [h, Bool.false_eq_true, if_neg, not_false_eq_true,
        ne_eq, not_true_eq_false, false_iff, not_and]
      intro he htok
      rcases this with h1 | h2
      · rw [he] at h1; exact Bool.noConfusion h1
      · have : settings.genius_token.isEmpty = true := by
          cases hh : settings.genius_token.isEmpty
          · rw [hh] at h2; exact Bool.noConfusion h2
          · rfl
        exact htok ((String.isEmpty_iff settings.genius_token).mp this)
    · have h2 := (Bool.and_eq_true _ _).mp h
      simp only [h, if_pos]
      constructor
      · intro _
        refine ⟨h2.1, ?_⟩
        intro htok
        have : settings.genius_token.isEmpty = true := by rw [htok]; rfl
        rw [this] at h2
        simp at h2
      · intro _
        simp
  · rw [providerCalls_lastfm, lastfmBranch_trace]
    cases h : (settings.enable_lastfm && !settings.lastfm_api_key.isEmpty)
    · have := Bool.and_eq_false_iff.mp h
      simp only [h, Bool.false_eq_true, if_neg, not_false_eq_true,
        ne_eq, not_true_eq_false, false_iff, not_and]
      intro he hkey
      rcases this with h1 | h2
      · rw [he] at h1; exact Bool.noConfusion h1
      · have : settings.lastfm_api_key.isEmpty = true := by
          cases hh : settings.lastfm_api_key.isEmpty
          · rw [hh] at h2; exact Bool.noConfusion h2
          · rfl
        exact hkey ((String.isEmpty_iff settings.lastfm_api_key).mp this)
    · have h2 := (Bool.and_eq_true _ _).mp h
      simp only [h, if_pos]
      constructor
      · intro _
        refine ⟨h2.1, ?_⟩
        intro hkey
        have : settings.lastfm_api_key.isEmpty = true := by rw [hkey]; rfl
        rw [this] at h2
        simp at h2
      · intro _
        simp

/-- C7: a provider disabled in settings gets no HTTP call to its
endpoints during `search_all`; with all four providers disabled,
`search_all` returns the empty list and performs zero HTTP calls. -/
theorem disabled_provider_no_calls (term : String) (settings : UserSettings) (env : AllEnv) :
    (settings.enable_apple_music = false →
      providerCalls Provider.appleMusic (searchAllTrace term settings env) = []) ∧
    (settings.enable_spotify = false →
      providerCalls Provider.spotify (searchAllTrace term settings env) = []) ∧
    (settings.enable_genius = false →
      providerCalls Provider.genius (searchAllTrace term settings env) = []) ∧
    (settings.enable_lastfm = false →
      providerCalls Provider.lastfm (searchAllTrace term settings env) = []) ∧
    ((settings.enable_apple_music = false ∧ settings.enable_spotify = false ∧
      settings.enable_genius = false ∧ settings.enable_lastfm = false) →
      search_all term settings env = [] ∧ searchAllTrace term settings env = []) := by
  refine ⟨?_, ?_, ?_, ?_, ?_⟩
  · intro h
    rw [providerCalls_apple, appleBranch_trace, h]
    rfl
  · intro h
    rw [providerCalls_spotify]
    unfold spotifyBranch
    rw [h]
    rfl
  · intro h
    rw [providerCalls_genius, geniusBranch_trace, h]
    rfl
  · intro h
    rw [providerCalls_lastfm, lastfmBranch_trace, h]
    rfl
  · rintro ⟨h1, h2, h3, h4⟩
    constructor
    · rw [searchAll_decomp]
      unfold appleContrib spotifyContrib geniusContrib lastfmContrib
      rw [h1, h2, h3, h4]
      rfl
    · rw [searchAllTrace_decomp]
      unfold appleBranch spotifyBranch geniusBranch lastfmBranch
      rw [h1, h2, h3, h4]
      rfl

/-- Witness for C7: all providers disabled on a concrete environment. -/
theorem disabled_provider_no_calls_witness :
    search_all "q" ⟨"id", "sec", "g", "k", false, false, false, false⟩
      ⟨HttpResult.resp 200 (some []),
       ⟨HttpResult.resp 200 (some "t"), HttpResult.resp 200 (some []),
        HttpResult.resp 200 (some "t"), HttpResult.resp 200 (some [])⟩,
       HttpResult.resp 200 (some []), HttpResult.resp 200 (some [])⟩ = [] ∧
    searchAllTrace "q" ⟨"id", "sec", "g", "k", false, false, false, false⟩
      ⟨HttpResult.resp 200 (some []),
       ⟨HttpResult.resp 200 (some "t"), HttpResult.resp 200 (some []),
        HttpResult.resp 200 (some "t"), HttpResult.resp 200 (some [])⟩,
       HttpResult.resp 200 (some []), HttpResult.resp 200 (some [])⟩ = [] := by
  exact (disabled_provider_no_calls "q" ⟨"id", "sec", "g", "k", false, false, false, false⟩
    ⟨HttpResult.resp 200 (some []),
     ⟨HttpResult.resp 200 (some "t"), HttpResult.resp 200 (some []),
      HttpResult.resp 200 (some "t"), HttpResult.resp 200 (some [])⟩,
     HttpResult.resp 200 (some []), HttpResult.resp 200 (some [])⟩).2.2.2.2
    ⟨rfl, rfl, rfl, rfl⟩

/-- C1: `search_all` is total over every combination of provider
outcomes and never surfaces an error: the returned list is the
concatenation of four per-provider contributions, each a function of
that provider's outcomes alone (so one provider's failure cannot change
another's contribution); a provider whose search fails contributes the
empty list; and the Spotify branch can never panic. -/
theorem searchAll_absorbs_failures (term : String) (settings : UserSettings) (env : AllEnv) :
    (search_all term settings env =
      appleContrib term settings env.apple ++ spotifyContrib term settings env.spotify ++
      geniusContrib term settings env.genius ++ lastfmContrib term settings env.lastfm) ∧
    (∀ e, (apple_music.search term env.apple).2 = .error e →
      appleContrib term settings env.apple = []) ∧
    (∀ e, ((SpotifyClient.new settings.spotify_id settings.spotify_secret).search term
        env.spotify).2.2 = SpotifyOutcome.err e →
      spotifyContrib term settings env.spotify = []) ∧
    (((SpotifyClient.new settings.spotify_id settings.spotify_secret).search term
        env.spotify).2.2 ≠ SpotifyOutcome.panicked) ∧
    (∀ e, ((⟨settings.genius_token⟩ : GeniusClient).search term env.genius).2 = .error e →
      geniusContrib term settings env.genius = []) ∧
    (∀ e, ((⟨settings.lastfm_api_key⟩ : LastFmClient).search term env.lastfm).2 = .error e →
      lastfmContrib term settings env.lastfm = []) := by
  refine ⟨searchAll_decomp term settings env, ?_, ?_, ?_, ?_, ?_⟩
  · intro e h
    unfold appleContrib
    rw [h]
    simp [exceptListD]
  · intro e h
    unfold spotifyContrib
    rw [h]
    simp [outcomeListD]
  · exact spotifySearch_no_panic _ term env.spotify
  · intro e h
    unfold geniusContrib
    rw [h]
    simp [exceptListD]
  · intro e h
    unfold lastfmContrib
    rw [h]
    simp [exceptListD]

/-- Witness for C1: all four providers enabled and credentialed, all
four failing in different ways; `search_all` still returns (the empty
list), with every failing provider contributing nothing. -/
theorem searchAll_absorbs_failures_witness :
    search_all "q" ⟨"id", "sec", "g", "k", true, true, true, true⟩
      ⟨HttpResult.transportErr "a",
       ⟨HttpResult.transportErr "b", HttpResult.resp 200 (some []),
        HttpResult.resp 200 (some "t"), HttpResult.resp 200 (some [])⟩,
       HttpResult.resp 500 none, HttpResult.resp 200 none⟩ = [] := by
  have h := searchAll_absorbs_failures "q" ⟨"id", "sec", "g", "k", true, true, true, true⟩
    ⟨HttpResult.transportErr "a",
     ⟨HttpResult.transportErr "b", HttpResult.resp 200 (some []),
      HttpResult.resp 200 (some "t"), HttpResult.resp 200 (some [])⟩,
     HttpResult.resp 500 none, HttpResult.resp 200 none⟩
  rw [h.1, h.2.1 ("Request failed: " ++ "a") rfl,
    h.2.2.1 ("Auth request failed: " ++ "b") rfl,
    h.2.2.2.2.1 ("Genius request failed with status: " ++ toString 500) rfl,
    h.2.2.2.2.2 "Last.fm parse failed" rfl]
  rfl

/-- C6: the list returned by `search_all` is exactly the concatenation,
in the fixed order Apple Music, Spotify, Genius, Last.fm, of the four
per-provider contributions; and on a successful provider outcome the
provider's block is the normalizer mapped over the provider's parsed
track list, preserving the provider's own result order. -/
theorem searchAll_result_order (term : String) (settings : UserSettings) (env : AllEnv) :
    (search_all term settings env =
      appleContrib term settings env.apple ++ spotifyContrib term settings env.spotify ++
      geniusContrib term settings env.genius ++ lastfmContrib term settings env.lastfm) ∧
    (settings.enable_apple_music = true → ∀ st tracks,
      env.apple = .resp st (some tracks) →
      appleContrib term settings env.apple = tracks.map appleNormalize) ∧
    (settings.enable_spotify = true → settings.spotify_id.isEmpty = false →
      ∀ st tok st2 tracks,
        env.spotify.authResp = .resp st (some tok) → statusIsSuccess st = true →
        env.spotify.searchResp = .resp st2 (some tracks) → (st2 == 401) = false →
        statusIsSuccess st2 = true →
        spotifyContrib term settings env.spotify = tracks.map spotifyNormalize) ∧
    (settings.enable_genius = true → settings.genius_token.isEmpty = false →
      ∀ st hits, env.genius = .resp st (some hits) → statusIsSuccess st = true →
        geniusContrib term settings env.genius = hits.map geniusNormalize) ∧
    (settings.enable_lastfm = true → settings.lastfm_api_key.isEmpty = false →
      ∀ st tracks, env.lastfm = .resp st (some tracks) → statusIsSuccess st = true →
        lastfmContrib term settings env.lastfm = tracks.map lastfmNormalize) := by
  refine ⟨searchAll_decomp term settings env, ?_, ?_, ?_, ?_⟩
  · intro he st tracks happ
    unfold appleContrib apple_music.search
    rw [he, happ]
    simp [exceptListD]
  · intro he hid st tok st2 tracks hauth hst hsearch h401 hst2
    unfold spotifyContrib
    have hcond : (settings.enable_spotify && !settings.spotify_id.isEmpty) = true := by
      rw [he, hid]
      rfl
    rw [hcond]
    unfold SpotifyClient.search
    have hcold : (SpotifyClient.new settings.spotify_id settings.spotify_secret).access_token
        = none := rfl
    rw [hcold]
    unfold SpotifyClient.authenticate
    rw [hauth]
    unfold spotifySearchCore
    rw [hsearch]
    simp [hst, h401, hst2, outcomeListD]
  · intro he htok st hits hg hst
    unfold geniusContrib GeniusClient.search
    have hcond : (settings.enable_genius && !settings.genius_token.isEmpty) = true := by
      rw [he, htok]
      rfl
    rw [hcond, hg]
    simp [htok, hst, exceptListD]
  · intro he hkey st tracks hl hst
    unfold lastfmContrib LastFmClient.search
    have hcond : (settings.enable_lastfm && !settings.lastfm_api_key.isEmpty) = true := by
      rw [he, hkey]
      rfl
    rw [hcond, hl]
    simp [hkey, hst, exceptListD]

/-- Witness for C6: all four providers enabled and succeeding with one
result each; the output is the four normalized records in the fixed
provider order. -/
theorem searchAll_result_order_witness :
    search_all "q" ⟨"id", "sec", "g", "k", true, true, true, true⟩
      ⟨HttpResult.resp 200 (some [⟨some "At", some "Aa", some "Aal", none⟩]),
       ⟨HttpResult.resp 200 (some "tok"),
        HttpResult.resp 200 (some [⟨"St", ⟨"Sal", []⟩, [⟨"Sa"⟩]⟩]),
        HttpResult.resp 200 (some "t2"), HttpResult.resp 200 (some [])⟩,
       HttpResult.resp 200 (some [⟨⟨"Gt", "Ga", none⟩⟩]),
       HttpResult.resp 200 (some [⟨"Lt", "La", none⟩])⟩ =
      [⟨"At", "Aa", "Aal", none, "Apple Music"⟩,
       ⟨"St", "Sa", "Sal", none, "Spotify"⟩,
       ⟨"Gt", "Ga", "Unknown (Genius)", none, "Genius"⟩,
       ⟨"Lt", "La", "Unknown (Last.fm)", none, "Last.fm"⟩] := by
  have h := searchAll_result_order "q" ⟨"id", "sec", "g", "k", true, true, true, true⟩
    ⟨HttpResult.resp 200 (some [⟨some "At", some "Aa", some "Aal", none⟩]),
     ⟨HttpResult.resp 200 (some "tok"),
      HttpResult.resp 200 (some [⟨"St", ⟨"Sal", []⟩, [⟨"Sa"⟩]⟩]),
      HttpResult.resp 200 (some "t2"), HttpResult.resp 200 (some [])⟩,
     HttpResult.resp 200 (some [⟨⟨"Gt", "Ga", none⟩⟩]),
     HttpResult.resp 200 (some [⟨"Lt", "La", none⟩])⟩
  rw [h.1, h.2.1 rfl 200 _ rfl,
    h.2.2.1 rfl rfl 200 "tok" 200 _ rfl rfl rfl rfl rfl,
    h.2.2.2.1 rfl rfl 200 _ rfl rfl,
    h.2.2.2.2 rfl rfl 200 _ rfl rfl]
  rfl

/-- Witness for C3: with Spotify enabled and a non-empty id (empty
secret) the Spotify endpoints are hit; with Genius enabled but an empty
token the Genius endpoint is not hit. -/
theorem provider_dispatch_iff_witness :
    providerCalls Provider.spotify (searchAllTrace "q"
      ⟨"id", "", "", "", false, true, true, false⟩
      ⟨HttpResult.resp 200 (some []),
       ⟨HttpResult.transportErr "x", HttpResult.resp 200 (some []),
        HttpResult.resp 200 (some "t"), HttpResult.resp 200 (some [])⟩,
       HttpResult.resp 200 (some []), HttpResult.resp 200 (some [])⟩) ≠ [] ∧
    ¬ providerCalls Provider.genius (searchAllTrace "q"
      ⟨"id", "", "", "", false, true, true, false⟩
      ⟨HttpResult.resp 200 (some []),
       ⟨HttpResult.transportErr "x", HttpResult.resp 200 (some []),
        HttpResult.resp 200 (some "t"), HttpResult.resp 200 (some [])⟩,
       HttpResult.resp 200 (some []), HttpResult.resp 200 (some [])⟩) ≠ [] := by
  constructor
  · exact (provider_dispatch_iff "q" ⟨"id", "", "", "", false, true, true, false⟩
      ⟨HttpResult.resp 200 (some []),
       ⟨HttpResult.transportErr "x", HttpResult.resp 200 (some []),
        HttpResult.resp 200 (some "t"), HttpResult.resp 200 (some [])⟩,
       HttpResult.resp 200 (some []), HttpResult.resp 200 (some [])⟩).2.1.mpr
      ⟨rfl, by decide⟩
  · intro hne
    have h := (provider_dispatch_iff "q" ⟨"id", "", "", "", false, true, true, false⟩
      ⟨HttpResult.resp 200 (some []),
       ⟨HttpResult.transportErr "x", HttpResult.resp 200 (some []),
        HttpResult.resp 200 (some "t"), HttpResult.resp 200 (some [])⟩,
       HttpResult.resp 200 (some []), HttpResult.resp 200 (some [])⟩).2.2.1.mp hne
    exact h.2 rfl
